import Mathlib

/-!
Shallow embedding of `sde.py` from the pysme repository.

The module defines one function,
`milstein(drift, diffusion, diffusion_prime, X0, ts, dws)`, documented as a
Milstein integrator for systems of stochastic differential equations.

Embedding conventions:
* numpy float arrays are modelled as lists of exact rationals (`State`);
  elementwise numpy arithmetic on equal-shaped arrays becomes `List.zipWith`
  and scalar broadcasting becomes `List.map`.
* `np.sqrt` has no exact rational counterpart, so the embedding receives it
  as an explicit extra argument `np_sqrt`; in the body it is applied only on
  line 53, a line that is never reached (see below), and every theorem below
  quantifies over it.
* Python name resolution is embedded where it decides the behaviour: on
  line 51 the body reads `t`, which is a local variable of the function (the
  for-loop on line 58 assigns it) with no value yet at that point, so the
  interpreter raises `UnboundLocalError` (a subclass of `NameError`) there on
  every call.  On line 54 the body reads `sqrtdt`, a name bound nowhere
  (line 53 binds `sqrtdts`), which would raise `NameError`; that line is
  never reached.  The fallible body is therefore embedded in `Except`.
-/

namespace SDE

/-- A state vector: the value of X at one time point.  numpy float arrays
are modelled as lists of exact rationals. -/
abbrev State := List ℚ

/-- The runtime errors that executing `milstein` can raise.  Both are
name-resolution failures; in Python, `UnboundLocalError` is a subclass of
`NameError`, so both constructors denote a `NameError`. -/
inductive PyError where
  | unboundLocalError_t : PyError
  | nameError_sqrtdt : PyError
  deriving DecidableEq, Repr

/-- Python class test `isinstance(e, NameError)`: `UnboundLocalError` is a
subclass of `NameError`, so both possible errors are `NameError` instances. -/
def PyError.isNameError : PyError → Bool
  | PyError.unboundLocalError_t => true
  | PyError.nameError_sqrtdt => true

/-- Elementwise product of two equal-shaped arrays (numpy `*`). -/
def vmul (v w : State) : State := List.zipWith (fun a b => a * b) v w

/-- Elementwise sum of two equal-shaped arrays (numpy `+`). -/
def vadd (v w : State) : State := List.zipWith (fun a b => a + b) v w

/-- Array times broadcast scalar on the right (numpy `v * c`). -/
def vscale (v : State) (c : ℚ) : State := v.map (fun x => x * c)

/-- Broadcast scalar times array (numpy `c * v`). -/
def smul (c : ℚ) (v : State) : State := v.map (fun x => c * x)

/-- Broadcast scalar plus array (numpy `c + v`). -/
def sadd (c : ℚ) (v : State) : State := v.map (fun x => c + x)

/-- The loop body of lines 59-60 of `sde.py`:
`X[-1] + drift(X[-1], t)*dt + diffusion(X[-1], t)*(dW + 0.5*diffusion_prime(X[-1], t)*(dW**2 - dt))`,
with numpy grouping `(X[-1] + drift*dt) + diffusion*(dW + (0.5*diffusion_prime)*(dW**2 - dt))`. -/
def milsteinStep (drift diffusion diffusion_prime : State → ℚ → State)
    (Xl : State) (t dt dW : ℚ) : State :=
  vadd (vadd Xl (vscale (drift Xl t) dt))
    (vmul (diffusion Xl t)
      (sadd dW (vscale (smul 0.5 (diffusion_prime Xl t)) (dW ^ 2 - dt))))

/-- The for-loop of lines 58-61 of `sde.py`: starting from the last stored
state, append one new state per `(t, dt, dW)` triple. -/
def milsteinRun (drift diffusion diffusion_prime : State → ℚ → State) :
    State → List (ℚ × ℚ × ℚ) → List State
  | _, [] => []
  | Xl, (t, dt, dW) :: rest =>
    let Xn := milsteinStep drift diffusion diffusion_prime Xl t dt dW
    Xn :: milsteinRun drift diffusion diffusion_prime Xn rest

/-- Python `zip` of three lists, truncating to the shortest. -/
def zip3 (a b c : List ℚ) : List (ℚ × ℚ × ℚ) :=
  List.zipWith (fun x p => (x, p)) a (List.zipWith Prod.mk b c)

/-- Shallow embedding of `milstein` (lines 10-62 of `sde.py`).

Line 51, `dts = [tf - ti for tf, ti in zip(t[1:], t[:-1])]`, reads `t`: a
local variable of the function (the for-loop target on line 58 makes `t`
local to the whole body) that is unassigned at this point, so the read
raises `UnboundLocalError` and nothing after it executes.

Line 54, `dWs = np.product(np.array([sqrtdt, dws]), axis=0)`, reads
`sqrtdt`, a name bound nowhere (line 53 binds `sqrtdts`); it would raise
`NameError`, but it is unreachable.  The remaining lines are embedded
faithfully even though they are dead code:
line 53 is `sqrtdts = np.sqrt(dts)`, line 56 is `X = [np.array(X0)]`
(taking a fresh array with the same values as `X0`), and lines 58-62 are
the update loop over `zip(ts[:-1], dts, dWs)` followed by `return X`. -/
def milstein (drift diffusion diffusion_prime : State → ℚ → State)
    (X0 : State) (ts dws : List ℚ) (np_sqrt : ℚ → ℚ) :
    Except PyError (List State) := do
  let t : List ℚ ← Except.error PyError.unboundLocalError_t
  let dts : List ℚ := List.zipWith (fun tf ti => tf - ti) (t.drop 1) t.dropLast
  let sqrtdts : List ℚ := dts.map np_sqrt
  let sqrtdt : List ℚ ← Except.error PyError.nameError_sqrtdt
  let dWs : List ℚ := vmul sqrtdt dws
  let X : List State := [X0]
  return X ++ milsteinRun drift diffusion diffusion_prime X0 (zip3 ts.dropLast dts dWs)

/-- The same body with the two name slips repaired the way the docstring of
`milstein` and the module spec intend: the read of `t` on line 51 resolves
to the parameter `ts`, and the read of `sqrtdt` on line 54 resolves to the
`sqrtdts` bound on line 53.  Everything else is unchanged. -/
def milstein_intended (drift diffusion diffusion_prime : State → ℚ → State)
    (X0 : State) (ts dws : List ℚ) (np_sqrt : ℚ → ℚ) : List State :=
  let dts : List ℚ := List.zipWith (fun tf ti => tf - ti) (ts.drop 1) ts.dropLast
  let sqrtdts : List ℚ := dts.map np_sqrt
  let dWs : List ℚ := vmul sqrtdts dws
  let X : List State := [X0]
  X ++ milsteinRun drift diffusion diffusion_prime X0 (zip3 ts.dropLast dts dWs)

/-- Strict increase of the time grid, tested on adjacent pairs. -/
def strictlyIncreasing : List ℚ → Bool
  | a :: b :: rest => if a < b then strictlyIncreasing (b :: rest) else false
  | _ => true

/-- Modelled from the spec (section 8, zero-diffusion reduction): explicit
forward Euler integration of the ODE dX = a(X,t)dt over the same grid,
X_next = X + drift(X, t)*dt for each interval. -/
def eulerRun (drift : State → ℚ → State) :
    State → List (ℚ × ℚ) → List State
  | _, [] => []
  | Xl, (t, dt) :: rest =>
    let Xn := vadd Xl (vscale (drift Xl t) dt)
    Xn :: eulerRun drift Xn rest

/-- Modelled from the spec (section 8): the full forward-Euler trajectory,
the initial state followed by one state per grid interval. -/
def euler (drift : State → ℚ → State) (X0 : State) (ts : List ℚ) : List State :=
  X0 :: eulerRun drift X0
    (List.zipWith Prod.mk ts.dropLast
      (List.zipWith (fun tf ti => tf - ti) (ts.drop 1) ts.dropLast))

/-- Rendering of the property claimed for zero drift and zero increments:
the call returns a trajectory all of whose elements equal the initial
state. -/
def returnsTrajectoryAllEq (r : Except PyError (List State)) (X0 : State) : Prop :=
  ∃ traj, r = Except.ok traj ∧ ∀ Y ∈ traj, Y = X0

/-! ## General facts about the embedded code -/

/-- The update loop appends exactly one state per triple. -/
theorem milsteinRun_length (drift diffusion diffusion_prime : State → ℚ → State) :
    ∀ (l : List (ℚ × ℚ × ℚ)) (Xl : State),
      (milsteinRun drift diffusion diffusion_prime Xl l).length = l.length := by
  intro l
  induction l with
  | nil => intro Xl; rfl
  | cons hd tl ih =>
    obtain ⟨t, dt, dW⟩ := hd
    intro Xl
    simp [milsteinRun, ih]

/-- Each state written by the update loop is the Milstein step applied to
the state stored just before it, for the triple with the same index. -/
theorem milsteinRun_step_recurrence (drift diffusion diffusion_prime : State → ℚ → State) :
    ∀ (l : List (ℚ × ℚ × ℚ)) (Xl : State) (i : ℕ) (t dt dW : ℚ) (Xi : State),
      l[i]? = some (t, dt, dW) →
      (Xl :: milsteinRun drift diffusion diffusion_prime Xl l)[i]? = some Xi →
      (Xl :: milsteinRun drift diffusion diffusion_prime Xl l)[i + 1]? =
        some (milsteinStep drift diffusion diffusion_prime Xi t dt dW) := by
  intro l
  induction l with
  | nil => intro Xl i t dt dW Xi h; simp at h
  | cons hd tl ih =>
    obtain ⟨t0, dt0, dW0⟩ := hd
    intro Xl i t dt dW Xi h hXi
    cases i with
    | zero =>
      simp at h
      obtain ⟨h1, h2, h3⟩ := h
      subst h1; subst h2; subst h3
      simp at hXi
      subst hXi
      simp [milsteinRun]
    | succ n =>
      simp at h
      have hXi' : ((milsteinStep drift diffusion diffusion_prime Xl t0 dt0 dW0) ::
          milsteinRun drift diffusion diffusion_prime
            (milsteinStep drift diffusion diffusion_prime Xl t0 dt0 dW0) tl)[n]? = some Xi := by
        simpa [milsteinRun] using hXi
      have := ih (milsteinStep drift diffusion diffusion_prime Xl t0 dt0 dW0) n t dt dW Xi h hXi'
      simpa [milsteinRun] using this

/-- The intended trajectory begins with the supplied initial state. -/
theorem milstein_intended_head (drift diffusion diffusion_prime : State → ℚ → State)
    (X0 : State) (ts dws : List ℚ) (np_sqrt : ℚ → ℚ) :
    (milstein_intended drift diffusion diffusion_prime X0 ts dws np_sqrt).head? = some X0 := rfl

/-- On shape-valid inputs the intended trajectory has one state per grid
point. -/
theorem milstein_intended_length (drift diffusion diffusion_prime : State → ℚ → State)
    (X0 : State) (ts dws : List ℚ) (np_sqrt : ℚ → ℚ)
    (hdw : dws.length = ts.length - 1) (hts : 1 ≤ ts.length) :
    (milstein_intended drift diffusion diffusion_prime X0 ts dws np_sqrt).length
      = ts.length := by
  simp [milstein_intended, zip3, vmul, milsteinRun_length, List.length_zipWith,
    List.length_map, List.length_dropLast, List.length_drop, hdw]
  omega

/-- The concrete scenario of spec section 8 run through the repaired body:
drift 0.05·X, diffusion 0.2·X, derivative 0.2, X0 = [100], ts = [0, 1],
dws = [0] gives the trajectory [[100], [103]]. -/
theorem milstein_intended_spec_value :
    milstein_intended (fun X _ => smul 0.05 X) (fun X _ => smul 0.2 X)
      (fun X _ => X.map (fun _ => 0.2)) [100] [0, 1] [0] (fun q => q)
      = [[100], [103]] := by
  simp [milstein_intended, milsteinRun, milsteinStep, vadd, vmul, vscale, smul, sadd, zip3]
  norm_num

/-- With zero drift and a zero increment the repaired body still moves: the
correction term b·0.5·b2·(dW² − dt) equals −0.5·b·b2·dt, so for diffusion
0.2·X, derivative 0.2, X0 = [100], dt = 1 the next state is [98], not
[100]. -/
theorem milstein_intended_zero_motion_value :
    milstein_intended (fun X _ => X.map (fun _ => 0)) (fun X _ => smul 0.2 X)
      (fun X _ => X.map (fun _ => 0.2)) [100] [0, 1] [0] (fun q => q)
      = [[100], [98]] := by
  simp [milstein_intended, milsteinRun, milsteinStep, vadd, vmul, vscale, smul, sadd, zip3]
  norm_num

/-- A zero-diffusion run of the repaired body agrees with forward Euler on a
concrete nonuniform grid. -/
theorem milstein_intended_euler_value :
    milstein_intended (fun X _ => smul 0.5 X) (fun X _ => X.map (fun _ => 0))
      (fun X _ => X.map (fun _ => 0)) [8] [0, 1, 3] [7, -4] (fun q => q)
      = euler (fun X _ => smul 0.5 X) [8] [0, 1, 3] := by
  simp [milstein_intended, milsteinRun, milsteinStep, euler, eulerRun, vadd, vmul,
    vscale, smul, sadd, zip3]

/-! ## The claims -/

/-- Claim C3 (confirmed): on every input whatsoever, `milstein` raises a
`NameError` before any trajectory element beyond X0 is computed — line 51
reads the unassigned local `t` (the parameter is `ts`), raising
`UnboundLocalError`, a `NameError` subclass, and line 54 would likewise read
the unbound `sqrtdt` — so the function never returns a trajectory on any
input. -/
theorem milstein_always_raises (drift diffusion diffusion_prime : State → ℚ → State)
    (X0 : State) (ts dws : List ℚ) (np_sqrt : ℚ → ℚ) :
    milstein drift diffusion diffusion_prime X0 ts dws np_sqrt
      = Except.error PyError.unboundLocalError_t ∧
    PyError.isNameError PyError.unboundLocalError_t = true :=
  ⟨rfl, rfl⟩

/-- Claim C1 (code bug): the claimed per-step Milstein recurrence of the
returned trajectory cannot be observed, because on a representative valid
input (linear drift and diffusion, two steps) the call raises
`UnboundLocalError` for the name `t` and returns no trajectory at all. -/
theorem milstein_linear_sde_raises :
    milstein (fun X _ => smul 0.05 X) (fun X _ => smul 0.3 X)
      (fun X _ => X.map (fun _ => 0.3)) [2] [0, 1, 2] [1, -1] (fun q => q)
      = Except.error PyError.unboundLocalError_t := rfl

/-- Claim C2 (code bug): the returned trajectory can have neither length
`len(ts)` nor head `X0`, because on this valid input the call raises
`UnboundLocalError` for the name `t` and returns no trajectory at all. -/
theorem milstein_header_case_raises :
    milstein (fun X _ => X) (fun X _ => X) (fun X _ => X) [5] [0, 1] [0] (fun q => q)
      = Except.error PyError.unboundLocalError_t := rfl

/-- Claim C4 (code bug): on the spec scenario (drift 0.05·X, diffusion
0.2·X, derivative 0.2, X0 = [100], ts = [0, 1], dws = [0]) the call does not
return a trajectory with element 1 equal to 103; it raises
`UnboundLocalError` for the name `t`. -/
theorem milstein_spec_case_raises :
    milstein (fun X _ => smul 0.05 X) (fun X _ => smul 0.2 X)
      (fun X _ => X.map (fun _ => 0.2)) [100] [0, 1] [0] (fun q => q)
      = Except.error PyError.unboundLocalError_t := rfl

/-- Claim C5 (code bug): with diffusion and its derivative constantly zero
the call still returns no Euler trajectory; it raises `UnboundLocalError`
for the name `t`. -/
theorem milstein_zero_diffusion_raises :
    milstein (fun X t => X.map (fun x => x + t)) (fun X _ => X.map (fun _ => 0))
      (fun X _ => X.map (fun _ => 0)) [1] [0, 1, 3] [1, 1] (fun q => q)
      = Except.error PyError.unboundLocalError_t := rfl

/-- Claim C6 (counterexample): with drift constantly zero and all increments
zero (diffusion 0.2·X, derivative 0.2, X0 = [100], ts = [0, 1], dws = [0])
the call does not return a trajectory all of whose elements equal X0: it
returns no trajectory at all, raising `UnboundLocalError` for the name `t`.
(Also, even with the name slips repaired the property would fail: the
correction term −0.5·b·b2·dt moves the state, see
the zero-motion value computed above for the repaired body.) -/
theorem milstein_zero_motion_counterexample :
    ¬ returnsTrajectoryAllEq
      (milstein (fun X _ => X.map (fun _ => 0)) (fun X _ => smul 0.2 X)
        (fun X _ => X.map (fun _ => 0.2)) [100] [0, 1] [0] (fun q => q)) [100] := by
  rintro ⟨traj, htraj, -⟩
  exact Except.noConfusion htraj

/-- Claim C6 (amended): with drift constantly zero and every increment zero,
`milstein` returns no trajectory at all: it raises `UnboundLocalError` for
the name `t` on line 51 before any state is computed. -/
theorem milstein_zero_motion_amended
    (diffusion diffusion_prime : State → ℚ → State) (X0 : State)
    (ts dws : List ℚ) (np_sqrt : ℚ → ℚ)
    (hw : ∀ w ∈ dws, w = (0 : ℚ)) :
    milstein (fun X _ => X.map (fun _ => 0)) diffusion diffusion_prime X0 ts dws np_sqrt
      = Except.error PyError.unboundLocalError_t := rfl

/-- Concrete instance of the amended claim C6: zero drift, increments
[0, 0], grid [0, 1, 2]. -/
theorem milstein_zero_motion_amended_witness :
    (∀ w ∈ ([0, 0] : List ℚ), w = (0 : ℚ)) ∧
    milstein (fun X _ => X.map (fun _ => 0)) (fun X _ => X) (fun X _ => X) [3]
      [0, 1, 2] [0, 0] (fun q => q) = Except.error PyError.unboundLocalError_t :=
  ⟨by decide,
   milstein_zero_motion_amended (fun X _ => X) (fun X _ => X) [3] [0, 1, 2] [0, 0]
     (fun q => q) (by decide)⟩

/-- Claim C7 (code bug): on an input with `len(dws) = len(ts)` the call does
raise before any integration step, but the error is the unconditional
`UnboundLocalError` for the name `t` — the same error as on every valid
input — not a descriptive shape diagnostic; the body contains no shape
validation at all. -/
theorem milstein_length_mismatch_raises :
    milstein (fun X _ => X) (fun X _ => X) (fun X _ => X) [3] [0, 1] [1, 1] (fun q => q)
      = Except.error PyError.unboundLocalError_t := rfl

/-- Claim C8 (confirmed): on every input whose time grid is not strictly
increasing, `milstein` raises an error and returns no trajectory (with a
negative or zero implied time step or otherwise).  It does so because
line 51 raises `UnboundLocalError` for the name `t` on every input, before
any time step is formed; the body contains no monotonicity validation. -/
theorem milstein_nonmonotonic_raises
    (drift diffusion diffusion_prime : State → ℚ → State) (X0 : State)
    (ts dws : List ℚ) (np_sqrt : ℚ → ℚ)
    (h : strictlyIncreasing ts = false) :
    milstein drift diffusion diffusion_prime X0 ts dws np_sqrt
      = Except.error PyError.unboundLocalError_t ∧
    (milstein drift diffusion diffusion_prime X0 ts dws np_sqrt).toOption = none :=
  ⟨rfl, rfl⟩

/-- Concrete instance of claim C8: the grid [0, 2, 1] is not strictly
increasing, and the call errors with no trajectory. -/
theorem milstein_nonmonotonic_raises_witness :
    strictlyIncreasing [0, 2, 1] = false ∧
    (milstein (fun X _ => X) (fun X _ => X) (fun X _ => X) [1] [0, 2, 1] [0, 0] (fun q => q)
        = Except.error PyError.unboundLocalError_t ∧
      (milstein (fun X _ => X) (fun X _ => X) (fun X _ => X) [1] [0, 2, 1] [0, 0]
          (fun q => q)).toOption = none) :=
  ⟨by decide,
   milstein_nonmonotonic_raises (fun X _ => X) (fun X _ => X) (fun X _ => X) [1]
     [0, 2, 1] [0, 0] (fun q => q) (by decide)⟩

/-- Claim C9 (code bug): two calls on identical inputs cannot yield
identical returned trajectories, because no call returns a trajectory: on
this input the call raises `UnboundLocalError` for the name `t`. -/
theorem milstein_repeat_call_raises :
    milstein (fun X _ => smul 2 X) (fun X _ => smul 3 X) (fun X _ => X.map (fun _ => 3))
      [4] [0, 1] [1] (fun q => q)
      = Except.error PyError.unboundLocalError_t := rfl

/-- Claim C10 (code bug): the call has no return value to compare side
effects against — it raises `UnboundLocalError` for the name `t` before the
trajectory container of line 56 is even allocated, so no trajectory ever
stores a copy of X0. -/
theorem milstein_no_effect_case_raises :
    milstein (fun X _ => X) (fun X _ => X) (fun X _ => X) [9] [1, 2] [1] (fun q => q)
      = Except.error PyError.unboundLocalError_t := rfl

end SDE
